import Mathlib

/-!
Verification of the request/response contract of the SaaS resume-builder
pipeline.  The development shallowly embeds the two Python entry points
(`app.py`, the interactive surface, and `ats_engine.py`, the command-line
surface) together with the parts of the Python runtime they rely on:
`json.loads`, `str.strip`, `str.startswith`, slicing, and `dict.get`.
-/

/-! ## JSON values, as produced by Python `json.loads` -/

/-- Decoded JSON value.  Numbers keep their source lexeme (the claims under
    study never compare numeric values across representations, and this avoids
    committing to a floating-point semantics).  Objects keep their key/value
    pairs in source order; Python dict construction lets a later duplicate key
    win, which the lookup function below reproduces. -/
inductive Json where
  | null : Json
  | bool (b : Bool) : Json
  | num (lexeme : String) : Json
  | str (s : String) : Json
  | arr (elems : List Json) : Json
  | obj (members : List (String × Json)) : Json

/-- JSON whitespace accepted between tokens by Python's json decoder. -/
def isJsonWs (c : Char) : Bool :=
  c = ' ' || c = '\t' || c = '\n' || c = '\r'

/-- Skip JSON whitespace. -/
def skipWs (cs : List Char) : List Char :=
  cs.dropWhile isJsonWs

/-- Value of one hexadecimal digit. -/
def hexVal (c : Char) : Option Nat :=
  if '0' ≤ c ∧ c ≤ '9' then some (c.toNat - '0'.toNat)
  else if 'a' ≤ c ∧ c ≤ 'f' then some (c.toNat - 'a'.toNat + 10)
  else if 'A' ≤ c ∧ c ≤ 'F' then some (c.toNat - 'A'.toNat + 10)
  else none

/-- Value of a four-digit hexadecimal escape. -/
def hex4 (a b c d : Char) : Option Nat := do
  let x ← hexVal a
  let y ← hexVal b
  let z ← hexVal c
  let w ← hexVal d
  pure (((x * 16 + y) * 16 + z) * 16 + w)

/-- Cons a decoded character onto a string-parse result. -/
def consDecoded (c : Char) (r : Option (List Char × List Char)) :
    Option (List Char × List Char) :=
  r.map (fun p => (c :: p.1, p.2))

/-- Parse the body of a JSON string literal (the opening quote already
    consumed), returning the decoded characters and the remaining input.
    Mirrors Python's strict decoder: raw control characters are rejected,
    only the eight standard escapes plus \uXXXX are accepted, and \uXXXX
    surrogate pairs are combined.  (A lone surrogate, which Python would keep
    as an unpaired surrogate code unit, has no `Char` counterpart and decodes
    through `Char.ofNat`'s fallback; no claim depends on that corner.)
    The fuel argument only bounds the number of consumed characters; every
    caller supplies more fuel than the input length, so it never runs out. -/
def parseStringFuel : Nat → List Char → Option (List Char × List Char)
  | 0, _ => none
  | _ + 1, [] => none
  | _ + 1, '"' :: rest => some ([], rest)
  | f + 1, '\\' :: 'u' :: a :: b :: c :: d :: rest =>
    (match hex4 a b c d with
     | none => none
     | some n =>
       if 0xD800 ≤ n ∧ n < 0xDC00 then
         match rest with
         | '\\' :: 'u' :: a2 :: b2 :: c2 :: d2 :: rest2 =>
           (match hex4 a2 b2 c2 d2 with
            | none => none
            | some m =>
              if 0xDC00 ≤ m ∧ m < 0xE000 then
                consDecoded (Char.ofNat (0x10000 + (n - 0xD800) * 0x400 + (m - 0xDC00)))
                  (parseStringFuel f rest2)
              else
                consDecoded (Char.ofNat n) (consDecoded (Char.ofNat m) (parseStringFuel f rest2)))
         | _ => consDecoded (Char.ofNat n) (parseStringFuel f rest)
       else
         consDecoded (Char.ofNat n) (parseStringFuel f rest))
  | f + 1, '\\' :: e :: rest =>
    if e = '"' then consDecoded '"' (parseStringFuel f rest)
    else if e = '\\' then consDecoded '\\' (parseStringFuel f rest)
    else if e = '/' then consDecoded '/' (parseStringFuel f rest)
    else if e = 'b' then consDecoded '\x08' (parseStringFuel f rest)
    else if e = 'f' then consDecoded '\x0c' (parseStringFuel f rest)
    else if e = 'n' then consDecoded '\n' (parseStringFuel f rest)
    else if e = 'r' then consDecoded '\r' (parseStringFuel f rest)
    else if e = 't' then consDecoded '\t' (parseStringFuel f rest)
    else none
  | f + 1, c :: rest =>
    if c.toNat < 32 then none else consDecoded c (parseStringFuel f rest)

/-- Parse a JSON string body with always-sufficient fuel. -/
def parseStringChars (cs : List Char) : Option (List Char × List Char) :=
  parseStringFuel (cs.length + 1) cs

/-- Integer part of a JSON number after the optional sign: a single `0`, or a
    nonzero digit followed by digits (the grammar of Python's NUMBER_RE). -/
def parseIntDigits : List Char → Option (List Char × List Char)
  | [] => none
  | c :: rest =>
    if c = '0' then some ([c], rest)
    else if c.isDigit then
      some (c :: rest.takeWhile Char.isDigit, rest.dropWhile Char.isDigit)
    else none

/-- Optional fractional part `.digits`; consumes nothing when absent or
    malformed, exactly like the greedy regex match in Python's decoder. -/
def parseFracDigits (cs : List Char) : List Char × List Char :=
  match cs with
  | '.' :: rest =>
    let ds := rest.takeWhile Char.isDigit
    if ds = [] then ([], cs) else ('.' :: ds, rest.dropWhile Char.isDigit)
  | _ => ([], cs)

/-- Optional exponent part `e[+-]digits`; consumes nothing when absent or
    malformed. -/
def parseExpDigits (cs : List Char) : List Char × List Char :=
  match cs with
  | e :: rest =>
    if e = 'e' ∨ e = 'E' then
      match rest with
      | s :: rest2 =>
        if s = '+' ∨ s = '-' then
          let ds := rest2.takeWhile Char.isDigit
          if ds = [] then ([], cs) else (e :: s :: ds, rest2.dropWhile Char.isDigit)
        else
          let ds := rest.takeWhile Char.isDigit
          if ds = [] then ([], cs) else (e :: ds, rest.dropWhile Char.isDigit)
      | [] => ([], cs)
    else ([], cs)
  | [] => ([], cs)

/-- Parse a JSON number lexeme. -/
def parseNumber (cs : List Char) : Option (List Char × List Char) :=
  match cs with
  | '-' :: rest =>
    (match parseIntDigits rest with
     | none => none
     | some (ip, r1) =>
       let fr := parseFracDigits r1
       let ex := parseExpDigits fr.2
       some ('-' :: (ip ++ fr.1 ++ ex.1), ex.2))
  | _ =>
    match parseIntDigits cs with
    | none => none
    | some (ip, r1) =>
      let fr := parseFracDigits r1
      let ex := parseExpDigits fr.2
      some (ip ++ fr.1 ++ ex.1, ex.2)

/-- Parse the members of a JSON object, positioned at the (whitespace-skipped)
    first key; `pv` parses one value.  Returns the members and the input after
    the closing brace. -/
def parseMembersF (pv : List Char → Option (Json × List Char)) :
    Nat → List Char → Option (List (String × Json) × List Char)
  | 0, _ => none
  | f + 1, cs =>
    match cs with
    | '"' :: rest =>
      (match parseStringChars rest with
       | none => none
       | some (k, r1) =>
         match skipWs r1 with
         | ':' :: r2 =>
           (match pv (skipWs r2) with
            | none => none
            | some (v, r3) =>
              match skipWs r3 with
              | ',' :: r4 =>
                (parseMembersF pv f (skipWs r4)).map
                  (fun p => ((String.mk k, v) :: p.1, p.2))
              | '\x7d' :: r4 => some ([(String.mk k, v)], r4)
              | _ => none)
         | _ => none)
    | _ => none

/-- Parse the elements of a JSON array, positioned at the (whitespace-skipped)
    first element; `pv` parses one value. -/
def parseElementsF (pv : List Char → Option (Json × List Char)) :
    Nat → List Char → Option (List Json × List Char)
  | 0, _ => none
  | f + 1, cs =>
    match pv cs with
    | none => none
    | some (v, r1) =>
      match skipWs r1 with
      | ',' :: r2 => (parseElementsF pv f (skipWs r2)).map (fun p => (v :: p.1, p.2))
      | ']' :: r2 => some ([v], r2)
      | _ => none

/-- Parse one JSON value (Python's json decoder, including its NaN/Infinity
    extensions), positioned at a non-whitespace character.  The fuel bounds
    nesting depth; `json_loads` supplies more fuel than any input can use. -/
def parseValue : Nat → List Char → Option (Json × List Char)
  | 0, _ => none
  | f + 1, cs =>
    match cs with
    | '\x7b' :: rest =>
      (match skipWs rest with
       | '\x7d' :: r2 => some (Json.obj [], r2)
       | r1 => (parseMembersF (parseValue f) f r1).map (fun p => (Json.obj p.1, p.2)))
    | '[' :: rest =>
      (match skipWs rest with
       | ']' :: r2 => some (Json.arr [], r2)
       | r1 => (parseElementsF (parseValue f) f r1).map (fun p => (Json.arr p.1, p.2)))
    | '"' :: rest => (parseStringChars rest).map (fun p => (Json.str (String.mk p.1), p.2))
    | 't' :: 'r' :: 'u' :: 'e' :: r => some (Json.bool true, r)
    | 'f' :: 'a' :: 'l' :: 's' :: 'e' :: r => some (Json.bool false, r)
    | 'n' :: 'u' :: 'l' :: 'l' :: r => some (Json.null, r)
    | 'N' :: 'a' :: 'N' :: r => some (Json.num "NaN", r)
    | 'I' :: 'n' :: 'f' :: 'i' :: 'n' :: 'i' :: 't' :: 'y' :: r =>
      some (Json.num "Infinity", r)
    | '-' :: 'I' :: 'n' :: 'f' :: 'i' :: 'n' :: 'i' :: 't' :: 'y' :: r =>
      some (Json.num "-Infinity", r)
    | _ => (parseNumber cs).map (fun p => (Json.num (String.mk p.1), p.2))

/-- Model of Python `json.loads`: parse one value surrounded by optional
    whitespace; any other trailing input is an error ("Extra data"). -/
def json_loads (s : String) : Option Json :=
  match parseValue (s.data.length + 1) (skipWs s.data) with
  | some (v, rest) => if skipWs rest = [] then some v else none
  | none => none

/-! ## Python string primitives used by the two surfaces -/

/-- Characters stripped by Python `str.strip()` (ASCII whitespace plus the
    Unicode space/separator characters CPython treats as whitespace). -/
def isPySpace (c : Char) : Bool :=
  c = ' ' || c = '\t' || c = '\n' || c = '\r' || c = '\x0b' || c = '\x0c' ||
  c = '\x1c' || c = '\x1d' || c = '\x1e' || c = '\x1f' || c = '\x85' ||
  c = '\xa0' || c = '\u1680' || c = '\u2000' || c = '\u2001' || c = '\u2002' ||
  c = '\u2003' || c = '\u2004' || c = '\u2005' || c = '\u2006' || c = '\u2007' ||
  c = '\u2008' || c = '\u2009' || c = '\u200A' || c = '\u2028' || c = '\u2029' ||
  c = '\u202F' || c = '\u205F' || c = '\u3000'

/-- Python `str.strip()` on a character list. -/
def pyStripList (xs : List Char) : List Char :=
  ((xs.dropWhile isPySpace).reverse.dropWhile isPySpace).reverse

/-- Python `str.strip()`. -/
def pyStrip (s : String) : String :=
  String.mk (pyStripList s.data)

/-- Python slice `t[a:-b]` for `a, b > 0` (clamped to empty when the bounds
    cross, as Python does). -/
def pySliceDropBoth (t : String) (a b : Nat) : String :=
  String.mk ((t.data.drop a).take (t.data.length - (a + b)))

/-- Python `s.startswith(pre)`. -/
def pyStartsWith (s pre : String) : Bool :=
  pre.data.isPrefixOf s.data

/-! ## Python `dict.get` and `str()` on decoded JSON values -/

/-- Lookup in an association list where a later duplicate key wins, matching
    the dict `json.loads` builds (later bindings overwrite earlier ones). -/
def lookupLast (kvs : List (String × Json)) (k : String) : Option Json :=
  kvs.foldl (fun acc p => if p.1 = k then some p.2 else acc) none

/-- Python `data.get(k, d)`.  On a dict it returns the binding or the default;
    on any non-dict value the attribute access raises `AttributeError`,
    modelled by `none`. -/
def Json.pyGet : Json → String → Json → Option Json
  | Json.obj kvs, k, d => some ((lookupLast kvs k).getD d)
  | _, _, _ => none

/-- Whether a decoded JSON value is an object (a Python dict). -/
def Json.isObj : Json → Bool
  | Json.obj _ => true
  | _ => false

/-- Python `repr()` of a decoded JSON value.  The atom cases are exact for the
    values reached by the claims (in particular the literal defaults `0` and
    `"N/A"`); container reprs and float-lexeme normalization are rendered
    structurally rather than byte-exactly, and no claim depends on them. -/
def pyRepr : Json → String
  | Json.null => "None"
  | Json.bool true => "True"
  | Json.bool false => "False"
  | Json.num lexeme => lexeme
  | Json.str s => "\x27" ++ s ++ "\x27"
  | Json.arr xs => "[" ++ String.intercalate ", " (xs.attach.map (fun x => pyRepr x.1)) ++ "]"
  | Json.obj kvs =>
    "\x7b" ++
      String.intercalate ", "
        (kvs.attach.map (fun p => "\x27" ++ p.1.1 ++ "\x27: " ++ pyRepr p.1.2)) ++
    "\x7d"
  termination_by v => sizeOf v
  decreasing_by
  · have h1 := List.sizeOf_lt_of_mem x.2
    simp only [Json.arr.sizeOf_spec]
    omega
  · have h1 := List.sizeOf_lt_of_mem p.2
    have h2 : sizeOf p.1.2 < sizeOf p.1 := by
      obtain ⟨⟨a, b⟩, hp⟩ := p
      simp only [Prod.mk.sizeOf_spec]
      omega
    simp only [Json.obj.sizeOf_spec]
    omega

/-- Python `str()` as used in an f-string: a str interpolates verbatim, any
    other value through its repr. -/
def pyStr : Json → String
  | Json.str s => s
  | v => pyRepr v

/-! ## Prompt Builder (ats_engine.py process_resume, lines 30-82) -/

/-- Opening of the prompt, through "using this weighting: ". -/
def promptIntro : String :=
  "You are a strict ATS evaluation and resume optimization engine. Analyze the provided resume text and job description carefully. First, extract structured information from the resume, including name, contact details, summary, skills, experience (company, role, duration, bullet points), projects, and education. Then extract structured job requirements from the job description, including mandatory skills, optional skills, tools, required experience years, and key responsibilities. Compare both and calculate an ATS compatibility score out of 100 using this weighting: "

/-- The five fixed score-category weights, verbatim as in the prompt. -/
def weightMandatory : String := "mandatory skills 40%"

/-- Second weight phrase. -/
def weightExperience : String := "experience alignment 20%"

/-- Third weight phrase. -/
def weightResponsibility : String := "responsibility similarity 20%"

/-- Fourth weight phrase. -/
def weightOptional : String := "optional skills 10%"

/-- Fifth weight phrase. -/
def weightClarity : String := "clarity and relevance 10%"

/-- Prompt text from after the weights through the schema announcement. -/
def promptPolicy : String :=
  ". Be strict but fair, and do not inflate the score. Identify missing mandatory skills and provide clear improvement suggestions.\n\nCRITICAL OPTIMIZATION STEP: You must rewrite the professional summary and ALL experience bullet points to specifically target and match the keywords, phrases, and critical responsibilities found in the Job Description. Maximize the ATS match score by strategically incorporating the exact job requirements naturally into the experience bullets, using strong action verbs and measurable impact where possible. Do not invent technologies, tools, or experience not present in the original resume.\n\nFinally, output three sections: (1) an ATS report with score breakdown and missing skills, (2) an optimized structured resume in JSON format, and (3) ATS-friendly single-column LaTeX resume code without tables, images, icons, or decorative formatting. Ensure all outputs are valid, structured, and ready for production use.\n\nOutput MUST strictly match this JSON schema format (do not include markdown block ticks like ```json, just output the raw JSON):\n"

/-- The literal schema example embedded in the prompt (the doubled braces of
    the Python f-string render as single braces). -/
def promptSchema : String :=
  "\x7b\n    \"scoring_report\": \x7b\n        \"match_score\": 0,\n        \"score_breakdown\": \x7b\n            \"mandatory_skills\": 0,\n            \"experience_alignment\": 0,\n            \"responsibility_similarity\": 0,\n            \"optional_skills\": 0,\n            \"clarity_and_relevance\": 0\n        \x7d,\n        \"missing_mandatory_skills\": [\"skill1\", \"skill2\"],\n        \"improvement_suggestions\": [\"suggestion1\"]\n    \x7d,\n    \"optimized_resume\": \x7b\n        \"name\": \"Full Name\",\n        \"contact_info\": \x7b\"email\": \"...\", \"phone\": \"...\", \"linkedin\": \"...\"\x7d,\n        \"summary\": \"Professional summary...\",\n        \"skills\": [\"skill_a\", \"skill_b\"],\n        \"experience\": [\n            \x7b\n                \"company\": \"Company Name\",\n                \"role\": \"Job Title\",\n                \"duration\": \"Duration\",\n                \"bullet_points\": [\"optimized bullet 1\", \"optimized bullet 2\"]\n            \x7d\n        ],\n        \"projects\": [\n            \x7b\n                \"name\": \"Project Name\",\n                \"description\": \"...\",\n                \"technologies\": [\"tech1\"]\n            \x7d\n        ],\n        \"education\": [\n            \x7b\"degree\": \"...\", \"institution\": \"...\", \"year\": \"...\"\x7d\n        ]\n    \x7d,\n    \"latex_code\": \"\\\\documentclass\x7barticle\x7d...\"\n\x7d\n"

/-- Delimiter line before the embedded resume text. -/
def promptResumeHeader : String := "\n--- RESUME TEXT ---\n"

/-- Delimiter line before the embedded job description. -/
def promptJobHeader : String := "\n\n--- JOB DESCRIPTION ---\n"

/-- The prompt assembled by `process_resume`: fixed instruction text with the
    resume text and the job description appended verbatim, clearly delimited.
    Pure function of its two inputs. -/
def buildPrompt (resume_text job_description : String) : String :=
  promptIntro ++ weightMandatory ++ ", " ++ weightExperience ++ ", " ++
    weightResponsibility ++ ", " ++ weightOptional ++ ", and " ++ weightClarity ++
    promptPolicy ++ promptSchema ++ promptResumeHeader ++ resume_text ++
    promptJobHeader ++ job_description ++ "\n"

/-! ## The Response Validator's fence-stripping step (app.py lines 72-79) -/

/-- Leading marker of a fenced code block tagged json. -/
def fenceJson : String := "```json"

/-- Bare fence marker. -/
def fenceMark : String := "```"

/-- The markdown-fence strip of app.py: if the stripped response starts with
    "```json" take `stripped[7:-3]`, else if it starts with "```" take
    `stripped[3:-3]`, else leave the response unchanged. -/
def stripFences (s : String) : String :=
  let t := pyStrip s
  if pyStartsWith t fenceJson then pySliceDropBoth t 7 3
  else if pyStartsWith t fenceMark then pySliceDropBoth t 3 3
  else s

/-- Parse step of the interactive surface: fence strip, then `json.loads`. -/
def appParsed (raw : String) : Option Json :=
  json_loads (stripFences raw)

/-- Parse step of the command-line surface: `json.loads` on the raw text,
    with no fence stripping (ats_engine.py line 124). -/
def cliParsed (raw : String) : Option Json :=
  json_loads raw

/-! ## Interactive surface (app.py) -/

/-- Values read while rendering the scoring tab (app.py lines 92-131); `none`
    models an `AttributeError` from calling `.get` on a non-dict, which the
    surrounding `except Exception` handler turns into a generic error. -/
def app_scoring_report (data : Json) : Option Json :=
  data.pyGet "scoring_report" (Json.obj [])

/-- Score shown in the metric, default `0` (app.py line 95). -/
def app_match_score (data : Json) : Option Json :=
  (app_scoring_report data).bind (fun sr => sr.pyGet "match_score" (Json.num "0"))

/-- The metric string `f"{match_score} / 100"` (app.py line 96). -/
def app_score_line (data : Json) : Option String :=
  (app_match_score data).map (fun v => pyStr v ++ " / 100")

/-- Missing-skills list, default `[]` (app.py line 109). -/
def app_missing_skills (data : Json) : Option Json :=
  (app_scoring_report data).bind
    (fun sr => sr.pyGet "missing_mandatory_skills" (Json.arr []))

/-- Structured-resume tab payload, default an empty dict (app.py line 127). -/
def app_optimized_resume (data : Json) : Option Json :=
  data.pyGet "optimized_resume" (Json.obj [])

/-- LaTeX tab payload, default the empty string (app.py line 131). -/
def app_latex_code (data : Json) : Option Json :=
  data.pyGet "latex_code" (Json.str "")

/-- Outcome of one press of the evaluate button. -/
inductive AppResult where
  | jobMissing : AppResult
  | acquisitionError : AppResult
  | jsonError (shown : String) : AppResult
  | genericError : AppResult
  | success (data : Json) : AppResult

/-- Handling of the model response on the interactive surface: strip fences,
    parse, and on `json.JSONDecodeError` show the structured-output error
    together with the (possibly fence-stripped) text bound to
    `result_json_str` at that point.  On a successful parse the tabs render;
    `success` records that the first rendering access (the score metric,
    app.py lines 92-96) went through, while an `AttributeError` there — e.g.
    when the parsed value is not a dict — is caught by the outer
    `except Exception` handler (app.py line 142), which shows a generic error
    without the raw text.  Later rendering steps can fall into the same
    generic handler; no claim depends on them. -/
def appAfterResponse (raw : String) : AppResult :=
  match json_loads (stripFences raw) with
  | none => AppResult.jsonError (stripFences raw)
  | some data =>
    match app_match_score data with
    | none => AppResult.genericError
    | some _ => AppResult.success data

/-- The evaluate block (app.py lines 41-84) from the point where the resume
    text has been extracted: an empty job description, then an empty (or
    whitespace-only) resume text, abort before `process_resume`; otherwise
    `process_resume` is called exactly once (the pair's first component counts
    network calls) and its response is handled. -/
def appEvaluate (resume_text job_desc : String) (respond : String → String) :
    Nat × AppResult :=
  if pyStrip job_desc = "" then (0, AppResult.jobMissing)
  else if pyStrip resume_text = "" then (0, AppResult.acquisitionError)
  else (1, appAfterResponse (respond (buildPrompt resume_text job_desc)))

/-! ## Command-line surface (ats_engine.py main) -/

/-- Content of one written output file. -/
inductive FileContent where
  | jsonFile (j : Json) : FileContent
  | textFile (s : String) : FileContent

/-- Outcome of the post-response part of `main`. -/
inductive CliOutcome where
  | configError : CliOutcome
  | jsonError (raw : String) : CliOutcome
  | crashAfter (files : List (String × FileContent)) : CliOutcome
  | success (files : List (String × FileContent)) (scoreLine : String) : CliOutcome

/-- Model of `os.path.join(outdir, name)` for the relative names used here. -/
def pathJoin (dir name : String) : String :=
  dir ++ "/" ++ name

/-- Payload dumped to scoring_report.json (ats_engine.py line 131). -/
def cli_scoring_dump (data : Json) : Option Json :=
  data.pyGet "scoring_report" (Json.obj [])

/-- Payload dumped to optimized_resume.json (ats_engine.py line 136). -/
def cli_resume_dump (data : Json) : Option Json :=
  data.pyGet "optimized_resume" (Json.obj [])

/-- Payload written to optimized_resume.tex (ats_engine.py line 141). -/
def cli_latex_dump (data : Json) : Option Json :=
  data.pyGet "latex_code" (Json.str "")

/-- The printed score value (ats_engine.py line 148):
    `result_data.get('scoring_report', dict()).get('match_score', 'N/A')`. -/
def cli_score_val (data : Json) : Option Json :=
  (cli_scoring_dump data).bind (fun sr => sr.pyGet "match_score" (Json.str "N/A"))

/-- The printed line fragment `f"{score_val} / 100"` (ats_engine.py line 149). -/
def cli_score_line (data : Json) : Option String :=
  (cli_score_val data).map (fun v => pyStr v ++ " / 100")

/-- Handling of the model response in `main` (ats_engine.py lines 122-155),
    following the statement order of the `try` block.  `json.JSONDecodeError`
    is the only caught exception: on parse failure the raw text and a
    diagnostic are printed and nothing is written.  On a successful parse the
    three files are written in order; a `.get` on a non-dict parse result
    raises `AttributeError` after `open` has already created an empty
    scoring_report.json, `f.write` of a non-str latex value raises
    `TypeError` after the first two dumps, and the score lookup on a non-dict
    scoring_report raises `AttributeError` after all three files were written
    and their paths printed.  All three escape `main` as a crash
    (`crashAfter` records the files left on disk). -/
def cliAfterResponse (outdir raw : String) : CliOutcome :=
  match json_loads raw with
  | none => CliOutcome.jsonError raw
  | some data =>
    match cli_scoring_dump data with
    | none =>
      CliOutcome.crashAfter [(pathJoin outdir "scoring_report.json", FileContent.textFile "")]
    | some sr =>
      match cli_resume_dump data with
      | none =>
        CliOutcome.crashAfter
          [(pathJoin outdir "scoring_report.json", FileContent.jsonFile sr),
           (pathJoin outdir "optimized_resume.json", FileContent.textFile "")]
      | some orj =>
        match cli_latex_dump data with
        | none =>
          CliOutcome.crashAfter
            [(pathJoin outdir "scoring_report.json", FileContent.jsonFile sr),
             (pathJoin outdir "optimized_resume.json", FileContent.jsonFile orj),
             (pathJoin outdir "optimized_resume.tex", FileContent.textFile "")]
        | some lxv =>
          match lxv with
          | Json.str lx =>
            match cli_score_line data with
            | none =>
              CliOutcome.crashAfter
                [(pathJoin outdir "scoring_report.json", FileContent.jsonFile sr),
                 (pathJoin outdir "optimized_resume.json", FileContent.jsonFile orj),
                 (pathJoin outdir "optimized_resume.tex", FileContent.textFile lx)]
            | some line =>
              CliOutcome.success
                [(pathJoin outdir "scoring_report.json", FileContent.jsonFile sr),
                 (pathJoin outdir "optimized_resume.json", FileContent.jsonFile orj),
                 (pathJoin outdir "optimized_resume.tex", FileContent.textFile lx)]
                line
          | _ =>
            CliOutcome.crashAfter
              [(pathJoin outdir "scoring_report.json", FileContent.jsonFile sr),
               (pathJoin outdir "optimized_resume.json", FileContent.jsonFile orj),
               (pathJoin outdir "optimized_resume.tex", FileContent.textFile "")]

/-- The command-line entry point from the point where both input files were
    read into text: a missing API key aborts (`not api_key`); otherwise
    `process_resume` is called exactly once with no guard on empty resume
    text, and the response is handled.  The first component counts network
    calls. -/
def cliMain (apiKey resume_text job_desc outdir : String)
    (respond : String → String) : Nat × CliOutcome :=
  if apiKey = "" then (0, CliOutcome.configError)
  else (1, cliAfterResponse outdir (respond (buildPrompt resume_text job_desc)))

/-! ## Text acquisition: parse_pdf (ats_engine.py lines 9-18) -/

/-- Model of `parse_pdf`: each page's `extract_text()` result is `none` or a
    string; a falsy result (None or the empty string) contributes nothing,
    any other text is appended followed by a newline. -/
def parse_pdf (pages : List (Option String)) : String :=
  pages.foldl
    (fun text p =>
      match p with
      | some extracted => if extracted = "" then text else text ++ extracted ++ "\n"
      | none => text)
    ""

/-- Concatenation of a list of strings (used to state what `parse_pdf`
    produces). -/
def concatAll (l : List String) : String :=
  l.foldr (fun a b => a ++ b) ""

/-- Substring containment, witnessed by an explicit decomposition. -/
def ContainsStr (s sub : String) : Prop :=
  ∃ p q : String, s = p ++ (sub ++ q)

/-! ## Helper lemmas -/

/-- The value parser consumes no fuel without input. -/
theorem parseValue_nil (f : Nat) : parseValue f [] = none := by
  cases f <;> rfl

/-- No JSON value starts with a backtick. -/
theorem parseValue_backtick (f : Nat) (cs : List Char) :
    parseValue f ('\x60' :: cs) = none := by
  cases f <;> rfl

/-- No JSON value starts with a whitespace character that Python `strip`
    removes but the json decoder does not skip. -/
theorem parseValue_pySpace (f : Nat) (c : Char) (cs : List Char)
    (h1 : isPySpace c = true) (h2 : isJsonWs c = false) :
    parseValue f (c :: cs) = none := by
  simp only [isPySpace, Bool.or_eq_true, decide_eq_true_eq, or_assoc] at h1
  simp only [isJsonWs, Bool.or_eq_false_iff, decide_eq_false_iff_not] at h2
  rcases h1 with h | h | h | h | h | h | h | h | h | h | h | h | h | h |
    h | h | h | h | h | h | h | h | h | h | h | h | h | h | h <;>
    first
      | exact absurd h h2.1.1.1
      | exact absurd h h2.1.1.2
      | exact absurd h h2.1.2
      | exact absurd h h2.2
      | (subst h; cases f <;> rfl)

/-- A `dropWhile` by a weaker predicate done first does not change a
    `dropWhile` by a stronger predicate. -/
theorem dropWhile_dropWhile_of_imp (p q : Char → Bool)
    (himp : ∀ a, q a = true → p a = true) :
    ∀ xs : List Char, (xs.dropWhile q).dropWhile p = xs.dropWhile p := by
  intro xs
  induction xs with
  | nil => rfl
  | cons x t ih =>
    by_cases hq : q x = true
    · have hp := himp x hq
      simp [List.dropWhile_cons, hq, hp, ih]
    · simp [List.dropWhile_cons, hq]

/-- `dropWhile` keeps a final element the predicate rejects. -/
theorem dropWhile_append_last (p : Char → Bool) (c : Char) (hc : p c = false) :
    ∀ l : List Char, (l ++ [c]).dropWhile p = l.dropWhile p ++ [c] := by
  intro l
  induction l with
  | nil => simp [List.dropWhile_cons, hc]
  | cons x t ih =>
    by_cases hx : p x = true
    · simp [List.dropWhile_cons, hx, ih]
    · simp [List.dropWhile_cons, hx]

/-- The head that `dropWhile` stops at falsifies the predicate. -/
theorem dropWhile_head_false (p : Char → Bool) :
    ∀ (xs ys : List Char) (c : Char), xs.dropWhile p = c :: ys → p c = false := by
  intro xs
  induction xs with
  | nil => intro ys c h; exact absurd h (by simp)
  | cons x t ih =>
    intro ys c h
    by_cases hx : p x = true
    · exact ih ys c (by simpa [List.dropWhile_cons, hx] using h)
    · rw [List.dropWhile_cons_of_neg (by simpa using hx)] at h
      cases h
      simpa using hx

/-- Python `strip` is the identity when both end characters are kept. -/
theorem pyStripList_no_strip (c d : Char) (mid : List Char)
    (hc : isPySpace c = false) (hd : isPySpace d = false) :
    pyStripList (c :: (mid ++ [d])) = c :: (mid ++ [d]) := by
  unfold pyStripList
  rw [List.dropWhile_cons_of_neg (by simp [hc])]
  have h1 : (c :: (mid ++ [d])).reverse = d :: (mid.reverse ++ [c]) := by
    simp
  rw [h1, List.dropWhile_cons_of_neg (by simp [hd])]
  simp

/-- Python `strip` keeps the first non-stripped character at the head. -/
theorem pyStripList_head (xs ys : List Char) (c : Char)
    (h : xs.dropWhile isPySpace = c :: ys) :
    pyStripList xs = c :: (ys.reverse.dropWhile isPySpace).reverse := by
  have hc : isPySpace c = false := dropWhile_head_false isPySpace xs ys c h
  unfold pyStripList
  rw [h]
  have h1 : (c :: ys).reverse = ys.reverse ++ [c] := by simp
  rw [h1, dropWhile_append_last isPySpace c hc]
  simp

/-- JSON whitespace is also Python strip whitespace. -/
theorem isJsonWs_imp_isPySpace (a : Char) (h : isJsonWs a = true) :
    isPySpace a = true := by
  simp only [isJsonWs, Bool.or_eq_true, decide_eq_true_eq, or_assoc] at h
  rcases h with h | h | h | h <;> simp [isPySpace, h]

/-- A text that `json.loads` accepts is left unchanged by the fence strip:
    its first non-whitespace character opens a JSON value, hence is neither
    strip-whitespace nor a backtick, so neither `startswith` test fires. -/
theorem stripFences_of_json (s : String) (v : Json) (h : json_loads s = some v) :
    stripFences s = s := by
  unfold json_loads at h
  rcases hpv : parseValue (s.data.length + 1) (skipWs s.data) with _ | pr
  · rw [hpv] at h; exact absurd h (by simp)
  rcases hu : skipWs s.data with _ | ⟨c, ys⟩
  · rw [hu, parseValue_nil] at hpv; exact absurd hpv (by simp)
  have hcj : isJsonWs c = false := dropWhile_head_false isJsonWs s.data ys c hu
  have hcp : isPySpace c = false := by
    rcases hb : isPySpace c with _ | _
    · rfl
    · rw [hu, parseValue_pySpace _ c ys hb hcj] at hpv
      exact absurd hpv (by simp)
  have hbt : c ≠ '\x60' := by
    intro hc
    rw [hu, hc, parseValue_backtick] at hpv
    exact absurd hpv (by simp)
  have hdp : s.data.dropWhile isPySpace = c :: ys := by
    have := dropWhile_dropWhile_of_imp isPySpace isJsonWs isJsonWs_imp_isPySpace s.data
    calc s.data.dropWhile isPySpace
        = (s.data.dropWhile isJsonWs).dropWhile isPySpace := this.symm
      _ = (c :: ys).dropWhile isPySpace := by rw [← hu]; rfl
      _ = c :: ys := List.dropWhile_cons_of_neg (by simp [hcp])
  have hstrip : pyStripList s.data = c :: (ys.reverse.dropWhile isPySpace).reverse :=
    pyStripList_head s.data ys c hdp
  have hhead : ∀ zs : List Char, (fenceMark.data.isPrefixOf (c :: zs)) = false := by
    intro zs
    have : fenceMark.data = '\x60' :: ['\x60', '\x60'] := rfl
    rw [this]
    simp only [List.isPrefixOf, Bool.and_eq_false_iff]
    left
    simpa [beq_eq_false_iff_ne] using fun hh => hbt hh.symm
  have hheadJ : ∀ zs : List Char, (fenceJson.data.isPrefixOf (c :: zs)) = false := by
    intro zs
    have : fenceJson.data = '\x60' :: ['\x60', '\x60', 'j', 's', 'o', 'n'] := rfl
    rw [this]
    simp only [List.isPrefixOf, Bool.and_eq_false_iff]
    left
    simpa [beq_eq_false_iff_ne] using fun hh => hbt hh.symm
  unfold stripFences pyStartsWith
  rw [show pyStrip s = String.mk (pyStripList s.data) from rfl, hstrip]
  simp only [hhead, hheadJ]
  rfl

/-- Stripping the fence from an exactly wrapped response recovers the wrapped
    text: `strip()` keeps the backtick-delimited string intact, the
    "```json" test fires, and `[7:-3]` removes exactly the two markers. -/
theorem stripFences_wrapped (T : String) :
    stripFences (fenceJson ++ T ++ fenceMark) = T := by
  have hdata : (fenceJson ++ T ++ fenceMark).data =
      fenceJson.data ++ (T.data ++ fenceMark.data) := by
    simp [String.data_append, List.append_assoc]
  have hshape : (fenceJson ++ T ++ fenceMark).data =
      '\x60' :: ((['\x60', '\x60', 'j', 's', 'o', 'n'] ++ T.data ++ ['\x60', '\x60']) ++
        ['\x60']) := by
    rw [hdata]
    show ['\x60', '\x60', '\x60', 'j', 's', 'o', 'n'] ++ (T.data ++ ['\x60', '\x60', '\x60']) = _
    simp
  have hstrip : pyStrip (fenceJson ++ T ++ fenceMark) = fenceJson ++ T ++ fenceMark := by
    show String.mk (pyStripList (fenceJson ++ T ++ fenceMark).data) = _
    rw [hshape, pyStripList_no_strip _ _ _ (by decide) (by decide), ← hshape]
  have hprefJ : pyStartsWith (fenceJson ++ T ++ fenceMark) fenceJson = true := by
    unfold pyStartsWith
    rw [hdata, List.isPrefixOf_iff_prefix]
    exact List.prefix_append _ _
  have hslice : pySliceDropBoth (fenceJson ++ T ++ fenceMark) 7 3 = T := by
    unfold pySliceDropBoth
    rw [hdata]
    rw [show (7 : Nat) = fenceJson.data.length from rfl, List.drop_left]
    have hlen : (fenceJson.data ++ (T.data ++ fenceMark.data)).length -
        (fenceJson.data.length + 3) = T.data.length := by
      simp only [List.length_append]
      show 7 + (T.data.length + 3) - (7 + 3) = T.data.length
      omega
    rw [hlen, ← show fenceMark.data = fenceMark.data from rfl]
    rw [show T.data.length = T.data.length from rfl, List.take_left]
  unfold stripFences
  rw [hstrip] at *
  simp only [hprefJ, if_true]
  exact hslice

/-- A string starting with the tagged marker also starts with the bare one. -/
theorem fenceJson_imp_mark (t : String) (h : pyStartsWith t fenceJson = true) :
    pyStartsWith t fenceMark = true := by
  unfold pyStartsWith at h ⊢
  rw [List.isPrefixOf_iff_prefix] at h ⊢
  exact List.IsPrefix.trans ⟨['j', 's', 'o', 'n'], rfl⟩ h

/-- The fence strip is a no-op whenever the stripped text does not start with
    the bare marker (hence not with the tagged one either). -/
theorem stripFences_no_mark (s : String)
    (h : pyStartsWith (pyStrip s) fenceMark = false) : stripFences s = s := by
  have hj : pyStartsWith (pyStrip s) fenceJson = false := by
    rcases hb : pyStartsWith (pyStrip s) fenceJson with _ | _
    · rfl
    · rw [fenceJson_imp_mark _ hb] at h
      cases h
  unfold stripFences
  simp [hj, h]

/-- Unfolding lemma for `concatAll`. -/
theorem concatAll_cons (a : String) (l : List String) :
    concatAll (a :: l) = a ++ concatAll l := rfl

/-- Generalized fold lemma behind `parse_pdf`: folding from any accumulator
    appends the newline-terminated nonempty page texts. -/
theorem parse_pdf_fold (pages : List (Option String)) :
    ∀ acc : String,
      pages.foldl
        (fun text p =>
          match p with
          | some extracted => if extracted = "" then text else text ++ extracted ++ "\n"
          | none => text)
        acc
      = acc ++ concatAll
          (((pages.filterMap id).filter (fun t => !(t == ""))).map (fun t => t ++ "\n")) := by
  induction pages with
  | nil => intro acc; simp [concatAll]
  | cons p rest ih =>
    intro acc
    cases p with
    | none => simpa using ih acc
    | some t =>
      by_cases ht : t = ""
      · subst ht
        simpa using ih acc
      · have hb : (!(t == "")) = true := by simpa using ht
        have hr : ((some t :: rest).filterMap id).filter (fun u => !(u == "")) =
            t :: (rest.filterMap id).filter (fun u => !(u == "")) := by
          simp [List.filterMap_cons, List.filter_cons, hb]
        simp only [List.foldl_cons]
        rw [if_neg ht, hr, List.map_cons, concatAll_cons, ih (acc ++ t ++ "\n")]
        simp [String.append_assoc]

/-- Reading `dict.get` on an object. -/
theorem pyGet_obj (kvs : List (String × Json)) (k : String) (d : Json) :
    (Json.obj kvs).pyGet k d = some ((lookupLast kvs k).getD d) := rfl

/-- Reading `dict.get` on a non-dict raises, modelled by `none`. -/
theorem pyGet_nonobj (v : Json) (k : String) (d : Json) (h : v.isObj = false) :
    v.pyGet k d = none := by
  cases v <;> first | rfl | exact absurd h (by simp [Json.isObj])

/-- Lookup in an empty object. -/
theorem lookupLast_nil (k : String) : lookupLast [] k = none := rfl

/-- A string contains its own final segment. -/
theorem containsStr_last (p s : String) : ContainsStr (p ++ s) s :=
  ⟨p, "", by rw [String.append_empty]⟩

/-- Containment is preserved by appending on the right. -/
theorem containsStr_appR (s t u : String) (h : ContainsStr s u) :
    ContainsStr (s ++ t) u := by
  obtain ⟨p, q, hpq⟩ := h
  exact ⟨p, q ++ t, by rw [hpq]; simp [String.append_assoc]⟩

/-! ## Claims -/

/-- Claim C1, corrected.  On the interactive surface an empty or
    whitespace-only resume text is rejected with an acquisition error before
    the Model Client is invoked (zero network calls), and any invocation that
    does reach the Model Client had non-empty resume and job-description
    texts.  (The original claim extended this to both surfaces; the
    counterexample shows the command-line surface has no such guard.) -/
theorem claim_C1 :
    (∀ rt jd f, pyStrip rt = "" → pyStrip jd ≠ "" →
      appEvaluate rt jd f = (0, AppResult.acquisitionError)) ∧
    (∀ rt jd f, (appEvaluate rt jd f).1 ≠ 0 →
      pyStrip rt ≠ "" ∧ pyStrip jd ≠ "") := by
  constructor
  · intro rt jd f h1 h2
    unfold appEvaluate
    rw [if_neg h2, if_pos h1]
  · intro rt jd f h
    unfold appEvaluate at h
    by_cases hjd : pyStrip jd = ""
    · rw [if_pos hjd] at h
      simp at h
    · by_cases hrt : pyStrip rt = ""
      · rw [if_neg hjd, if_pos hrt] at h
        simp at h
      · exact ⟨hrt, hjd⟩

/-- Claim C1 witness: a whitespace-only resume is rejected with zero calls. -/
theorem claim_C1_witness :
    appEvaluate "   " "Python developer wanted" (fun _ => "x") =
      (0, AppResult.acquisitionError) :=
  claim_C1.1 "   " "Python developer wanted" (fun _ => "x") rfl (by decide)

/-- Claim C1 counterexample: on the command-line surface an empty resume text
    still issues one network call — `main` has no empty-resume guard. -/
theorem claim_C1_counterexample :
    pyStrip "" = "" ∧
    (cliMain "key" "" "Python developer wanted" "output" (fun _ => "x")).1 = 1 :=
  ⟨rfl, rfl⟩

/-- Claim C2, confirmed.  For every response text T that `json.loads` parses
    to a value V, the Response Validator (fence strip followed by parse)
    yields V both on T wrapped as "```json" ++ T ++ "```" and on the
    unwrapped T. -/
theorem claim_C2 (T : String) (V : Json) (h : json_loads T = some V) :
    appParsed (fenceJson ++ T ++ fenceMark) = some V ∧ appParsed T = some V := by
  constructor
  · unfold appParsed
    rw [stripFences_wrapped]
    exact h
  · unfold appParsed
    rw [stripFences_of_json T V h]
    exact h

/-- Claim C2 witness at a concrete JSON object. -/
theorem claim_C2_witness :
    appParsed (fenceJson ++ "\x7b\"match_score\": 72\x7d" ++ fenceMark) =
      some (Json.obj [("match_score", Json.num "72")]) ∧
    appParsed "\x7b\"match_score\": 72\x7d" =
      some (Json.obj [("match_score", Json.num "72")]) :=
  claim_C2 "\x7b\"match_score\": 72\x7d" (Json.obj [("match_score", Json.num "72")]) rfl

/-- Claim C3, corrected.  The fence-strip normalization is the identity on
    every input whose stripped text does not begin with a fence marker.  (The
    original claim also asserted idempotence and a no-op whenever a trailing
    marker is missing; the counterexample refutes both.) -/
theorem claim_C3 (s : String)
    (h : pyStartsWith (pyStrip s) fenceMark = false) : stripFences s = s :=
  stripFences_no_mark s h

/-- Claim C3 witness: a fence-free input is left unchanged. -/
theorem claim_C3_witness : stripFences "hello" = "hello" :=
  claim_C3 "hello" rfl

/-- Claim C3 counterexample: an input with a leading "```json" marker but no
    trailing marker is still cut (so the function is not a no-op there), and
    a twice-fenced input shows the function is not idempotent. -/
theorem claim_C3_counterexample :
    (stripFences "```json abc" = " " ∧ (" " : String) ≠ "```json abc") ∧
    stripFences (stripFences "```json```abc```") ≠ stripFences "```json```abc```" := by
  refine ⟨⟨rfl, by decide⟩, ?_⟩
  decide

/-- Claim C4, confirmed.  On a response parsed to an object, each absent
    top-level key (scoring_report, optimized_resume, latex_code) is replaced
    by its empty default on both surfaces, and an absent nested
    missing_mandatory_skills yields the empty sequence. -/
theorem claim_C4 (kvs : List (String × Json)) :
    (lookupLast kvs "scoring_report" = none →
      app_scoring_report (Json.obj kvs) = some (Json.obj []) ∧
      app_missing_skills (Json.obj kvs) = some (Json.arr []) ∧
      cli_scoring_dump (Json.obj kvs) = some (Json.obj [])) ∧
    (∀ skvs, lookupLast kvs "scoring_report" = some (Json.obj skvs) →
      lookupLast skvs "missing_mandatory_skills" = none →
      app_missing_skills (Json.obj kvs) = some (Json.arr [])) ∧
    (lookupLast kvs "optimized_resume" = none →
      app_optimized_resume (Json.obj kvs) = some (Json.obj []) ∧
      cli_resume_dump (Json.obj kvs) = some (Json.obj [])) ∧
    (lookupLast kvs "latex_code" = none →
      app_latex_code (Json.obj kvs) = some (Json.str "") ∧
      cli_latex_dump (Json.obj kvs) = some (Json.str "")) := by
  refine ⟨?_, ?_, ?_, ?_⟩
  · intro h
    refine ⟨?_, ?_, ?_⟩ <;>
      simp [app_scoring_report, app_missing_skills, cli_scoring_dump, Json.pyGet, h,
        lookupLast_nil]
  · intro skvs h1 h2
    simp [app_missing_skills, app_scoring_report, Json.pyGet, h1, h2]
  · intro h
    constructor <;> simp [app_optimized_resume, cli_resume_dump, Json.pyGet, h]
  · intro h
    constructor <;> simp [app_latex_code, cli_latex_dump, Json.pyGet, h]

/-- Claim C4 witness at the empty object. -/
theorem claim_C4_witness :
    app_missing_skills (Json.obj []) = some (Json.arr []) ∧
    cli_latex_dump (Json.obj []) = some (Json.str "") :=
  ⟨((claim_C4 []).1 rfl).2.1, ((claim_C4 []).2.2.2 rfl).2⟩

/-- Claim C5, corrected.  A response that is not parseable JSON produces a
    structured-output error on both surfaces with the parse-attempt text
    retained (the CLI keeps the raw text verbatim, the interactive surface
    the fence-stripped text) and no abnormal termination; but a response that
    parses to a non-object crashes the CLI with an uncaught AttributeError
    (leaving an empty scoring_report.json behind) and falls into the
    interactive surface's generic handler without showing the raw text. -/
theorem claim_C5 :
    (∀ dir raw, json_loads raw = none →
      cliAfterResponse dir raw = CliOutcome.jsonError raw) ∧
    (∀ raw, json_loads (stripFences raw) = none →
      appAfterResponse raw = AppResult.jsonError (stripFences raw)) ∧
    (∀ dir raw d, json_loads raw = some d → d.isObj = false →
      cliAfterResponse dir raw =
        CliOutcome.crashAfter
          [(pathJoin dir "scoring_report.json", FileContent.textFile "")]) ∧
    (∀ raw d, json_loads (stripFences raw) = some d → d.isObj = false →
      appAfterResponse raw = AppResult.genericError) := by
  refine ⟨?_, ?_, ?_, ?_⟩
  · intro dir raw h
    simp only [cliAfterResponse, h]
  · intro raw h
    simp only [appAfterResponse, h]
  · intro dir raw d h hobj
    have hsd : cli_scoring_dump d = none := pyGet_nonobj d _ _ hobj
    simp only [cliAfterResponse, h, hsd]
  · intro raw d h hobj
    have h1 : app_scoring_report d = none := pyGet_nonobj d _ _ hobj
    have hms : app_match_score d = none := by
      simp [app_match_score, h1]
    simp only [appAfterResponse, h, hms]

/-- Claim C5 witness: unparseable text is reported with the raw text kept. -/
theorem claim_C5_witness :
    cliAfterResponse "output" "not json at all" =
      CliOutcome.jsonError "not json at all" :=
  claim_C5.1 "output" "not json at all" rfl

/-- Claim C5 counterexample: "[]" parses to a non-object; the CLI then
    crashes with an uncaught AttributeError instead of reporting a
    structured-output error. -/
theorem claim_C5_counterexample :
    json_loads "[]" = some (Json.arr []) ∧
    cliAfterResponse "output" "[]" =
      CliOutcome.crashAfter
        [("output/scoring_report.json", FileContent.textFile "")] :=
  ⟨rfl, rfl⟩

/-- Claim C6, corrected.  The two surfaces call the same Model Client but
    parse separately: the interactive surface strips markdown fences first
    while the command-line surface does not.  The parse outcomes coincide on
    every response whose stripped text does not begin with a fence marker;
    the counterexample shows a fenced response on which they differ. -/
theorem claim_C6 (raw : String)
    (h : pyStartsWith (pyStrip raw) fenceMark = false) :
    appParsed raw = cliParsed raw := by
  unfold appParsed cliParsed
  rw [stripFences_no_mark raw h]

/-- Claim C6 witness at a plain JSON response. -/
theorem claim_C6_witness : appParsed "\x7b\x7d" = cliParsed "\x7b\x7d" :=
  claim_C6 "\x7b\x7d" rfl

/-- Claim C6 counterexample: on a fenced response the interactive surface
    parses an object while the command-line surface fails to parse. -/
theorem claim_C6_counterexample :
    appParsed "```json\x7b\x7d```" = some (Json.obj []) ∧
    cliParsed "```json\x7b\x7d```" = none ∧
    some (Json.obj []) ≠ (none : Option Json) :=
  ⟨rfl, rfl, by simp⟩

/-- Claim C7, confirmed.  For every non-empty resume text R and non-empty
    job-description text J the prompt built by `process_resume` contains R
    and J verbatim as contiguous substrings and contains the five fixed
    score-category weight phrases, whose values sum to 100. -/
theorem claim_C7 (R J : String) (_hR : R ≠ "") (_hJ : J ≠ "") :
    ContainsStr (buildPrompt R J) R ∧
    ContainsStr (buildPrompt R J) J ∧
    ContainsStr (buildPrompt R J) "mandatory skills 40%" ∧
    ContainsStr (buildPrompt R J) "experience alignment 20%" ∧
    ContainsStr (buildPrompt R J) "responsibility similarity 20%" ∧
    ContainsStr (buildPrompt R J) "optional skills 10%" ∧
    ContainsStr (buildPrompt R J) "clarity and relevance 10%" ∧
    40 + 20 + 20 + 10 + 10 = 100 := by
  refine ⟨?_, ?_, ?_, ?_, ?_, ?_, ?_, by norm_num⟩ <;>
    · unfold buildPrompt
      repeat first
        | exact containsStr_last _ _
        | apply containsStr_appR

/-- Claim C7 witness at concrete one-character inputs. -/
theorem claim_C7_witness :
    ContainsStr (buildPrompt "a" "b") "a" ∧
    ContainsStr (buildPrompt "a" "b") "b" ∧
    ContainsStr (buildPrompt "a" "b") "mandatory skills 40%" ∧
    ContainsStr (buildPrompt "a" "b") "experience alignment 20%" ∧
    ContainsStr (buildPrompt "a" "b") "responsibility similarity 20%" ∧
    ContainsStr (buildPrompt "a" "b") "optional skills 10%" ∧
    ContainsStr (buildPrompt "a" "b") "clarity and relevance 10%" ∧
    40 + 20 + 20 + 10 + 10 = 100 :=
  claim_C7 "a" "b" (by decide) (by decide)

/-- Claim C8, corrected.  On the command-line surface, a response parsed to
    an object whose scoring_report (when present) is itself an object and
    whose latex_code (when present) is a string leads to exactly the three
    output files scoring_report.json, optimized_resume.json and
    optimized_resume.tex, with their paths and the line-148 score printed; a
    JSON parse failure prints the raw output and a diagnostic and writes
    nothing.  (The original claim promised the score print after every
    successful parse; the counterexample shows an object response whose
    scoring_report is a number: all three files are written and then the
    score lookup crashes, so no score is printed.) -/
theorem claim_C8 :
    (∀ dir raw kvs srkvs lx,
      json_loads raw = some (Json.obj kvs) →
      (lookupLast kvs "scoring_report").getD (Json.obj []) = Json.obj srkvs →
      (lookupLast kvs "latex_code").getD (Json.str "") = Json.str lx →
      cliAfterResponse dir raw = CliOutcome.success
        [(pathJoin dir "scoring_report.json", FileContent.jsonFile (Json.obj srkvs)),
         (pathJoin dir "optimized_resume.json",
           FileContent.jsonFile ((lookupLast kvs "optimized_resume").getD (Json.obj []))),
         (pathJoin dir "optimized_resume.tex", FileContent.textFile lx)]
        (pyStr ((lookupLast srkvs "match_score").getD (Json.str "N/A")) ++ " / 100")) ∧
    (∀ dir raw, json_loads raw = none →
      cliAfterResponse dir raw = CliOutcome.jsonError raw) := by
  constructor
  · intro dir raw kvs srkvs lx h1 h2 h3
    simp only [cliAfterResponse, h1, cli_scoring_dump, cli_resume_dump, cli_latex_dump,
      cli_score_line, cli_score_val, Json.pyGet, h2, h3, Option.bind_some]
    rfl
  · intro dir raw h
    simp only [cliAfterResponse, h]

/-- Claim C8 witness: the empty-object response writes the three files and
    prints the default score line. -/
theorem claim_C8_witness :
    cliAfterResponse "output" "\x7b\x7d" = CliOutcome.success
      [("output/scoring_report.json", FileContent.jsonFile (Json.obj [])),
       ("output/optimized_resume.json", FileContent.jsonFile (Json.obj [])),
       ("output/optimized_resume.tex", FileContent.textFile "")]
      "N/A / 100" :=
  claim_C8.1 "output" "\x7b\x7d" [] [] "" rfl rfl rfl

/-- Claim C8 counterexample: the response parses successfully to an object,
    the three files are written and the paths printed, but the score lookup
    then raises an uncaught AttributeError, so no score line is printed. -/
theorem claim_C8_counterexample :
    json_loads "\x7b\"scoring_report\": 5\x7d" =
      some (Json.obj [("scoring_report", Json.num "5")]) ∧
    cliAfterResponse "output" "\x7b\"scoring_report\": 5\x7d" =
      CliOutcome.crashAfter
        [("output/scoring_report.json", FileContent.jsonFile (Json.num "5")),
         ("output/optimized_resume.json", FileContent.jsonFile (Json.obj [])),
         ("output/optimized_resume.tex", FileContent.textFile "")] :=
  ⟨rfl, rfl⟩

/-- Claim C9, corrected.  `parse_pdf` concatenates, in page order, the text
    of every page that yields text, each occurrence followed (rather than
    separated) by a newline; pages yielding no text contribute nothing, and a
    PDF in which no page yields text gives the empty string.  (The
    counterexample shows the newline-separated reading is off by the
    trailing newline.) -/
theorem claim_C9 (pages : List (Option String)) :
    parse_pdf pages =
      concatAll (((pages.filterMap id).filter (fun t => !(t == ""))).map
        (fun t => t ++ "\n")) ∧
    ((pages.filterMap id).filter (fun t => !(t == "")) = [] →
      parse_pdf pages = "") := by
  have h := parse_pdf_fold pages ""
  constructor
  · unfold parse_pdf
    rw [h, String.empty_append]
  · intro h0
    unfold parse_pdf
    rw [h, h0]
    rfl

/-- Claim C9 witness: a PDF with an unreadable page and an empty-text page
    yields the empty string. -/
theorem claim_C9_witness : parse_pdf [none, some ""] = "" :=
  (claim_C9 [none, some ""]).2 rfl

/-- Claim C9 counterexample: two pages "a" and "b" produce "a\nb\n", not the
    newline-separated concatenation "a\nb". -/
theorem claim_C9_counterexample :
    parse_pdf [some "a", some "b"] = "a\nb\n" ∧
    String.intercalate "\n" ["a", "b"] = "a\nb" ∧
    parse_pdf [some "a", some "b"] ≠ String.intercalate "\n" ["a", "b"] :=
  ⟨rfl, by decide, by decide⟩

/-- Claim C10, confirmed.  When the parsed object lacks a scoring_report, or
    its scoring_report object lacks a match_score, the interactive surface
    displays "0 / 100" (default 0) while the command-line surface prints
    "N/A / 100" (default 'N/A'). -/
theorem claim_C10 (kvs : List (String × Json)) :
    (lookupLast kvs "scoring_report" = none →
      app_score_line (Json.obj kvs) = some "0 / 100" ∧
      cli_score_line (Json.obj kvs) = some "N/A / 100") ∧
    (∀ skvs, lookupLast kvs "scoring_report" = some (Json.obj skvs) →
      lookupLast skvs "match_score" = none →
      app_score_line (Json.obj kvs) = some "0 / 100" ∧
      cli_score_line (Json.obj kvs) = some "N/A / 100") := by
  constructor
  · intro h
    constructor
    · simp [app_score_line, app_match_score, app_scoring_report, Json.pyGet, h,
        lookupLast_nil, pyStr, pyRepr]
    · simp [cli_score_line, cli_score_val, cli_scoring_dump, Json.pyGet, h,
        lookupLast_nil, pyStr]
  · intro skvs h1 h2
    constructor
    · simp [app_score_line, app_match_score, app_scoring_report, Json.pyGet, h1, h2,
        pyStr, pyRepr]
    · simp [cli_score_line, cli_score_val, cli_scoring_dump, Json.pyGet, h1, h2, pyStr]

/-- Claim C10 witness at the empty object. -/
theorem claim_C10_witness :
    app_score_line (Json.obj []) = some "0 / 100" ∧
    cli_score_line (Json.obj []) = some "N/A / 100" :=
  (claim_C10 []).1 rfl
